import Mathlib

/-!
Verification of `bird.py` from kaledev/mastodon-image-bot.

Shallow embedding conventions:
* wall-clock instants are integers counting microseconds from a
  midnight-aligned epoch (`dayLen` microseconds per day);
* file contents, the random pick and the outcomes of the external service
  calls are explicit parameters of the embedded functions;
* Python exceptions are an `Except` result: `PyError.exc` for any
  `Exception` (caught by the `except Exception` handlers), `PyError.exit`
  for the `SystemExit` raised by `sys.exit` (which `except Exception`
  does not catch);
* Python's `str.strip()` and `str.lower()` are modelled by `pyStrip` and
  `pyLower` over the string's character list (the core `String.trim` and
  `String.toLower` are not kernel-reducible; these are, and agree on the
  ASCII data the program handles).
-/

/-- Python `str.strip()`: remove leading and trailing whitespace. -/
def pyStrip (s : String) : String :=
  String.mk
    (((s.data.dropWhile Char.isWhitespace).reverse.dropWhile
        Char.isWhitespace).reverse)

/-- Python `str.lower()` on the ASCII text the program handles. -/
def pyLower (s : String) : String :=
  String.mk (s.data.map Char.toLower)

/-- Microseconds in an hour. -/
def hourLen : Nat := 3600000000

/-- Microseconds in a day. -/
def dayLen : Nat := 86400000000

/-- The `now.replace(...)` of bird.py line 53, which zeroes minute, second and
microsecond: today's instant at hour `h` sharp, in microseconds. -/
def replaceHour (now h : Nat) : Nat := now / dayLen * dayLen + h * hourLen

/-- `time_until_next_run` of bird.py lines 50-59, in microseconds: the delay
until the next occurrence of `target_hour`, rolling to tomorrow when the
current instant is at or past today's target instant. -/
def time_until_next_run (now : Nat) (target_hour : Nat) : Int :=
  (if (replaceHour now target_hour : Int) ≤ (now : Int)
      then (replaceHour now target_hour : Int) + (dayLen : Int)
      else (replaceHour now target_hour : Int)) - (now : Int)

/-- Microseconds in the 24-hour `timedelta` of bird.py line 71. -/
def hours24 : Int := 24 * 3600000000

/-- `should_retry` of bird.py lines 61-77. `marker` is the content of
ERROR_FILE when that file exists; `fromisoformat` models
`datetime.fromisoformat`, `none` meaning the call raises `ValueError`;
`now` is `datetime.now()` in microseconds. -/
def should_retry (marker : Option String) (fromisoformat : String → Option Int)
    (now : Int) : Bool :=
  match marker with
  | none => true
  | some raw =>
    if pyStrip raw = "" then true
    else
      match fromisoformat (pyStrip raw) with
      | some last_error_time =>
        if now < last_error_time + hours24 then false else true
      | none => true

/-- One row of HOLIDAYS_FILE as `csv.DictReader` yields it, with columns
Date, Name and Type; the last is called `Type'` because `Type` is a Lean
keyword. -/
structure HolidayRow where
  Date : String
  Name : String
  Type' : String
deriving DecidableEq

/-- The clause bird.py line 187 appends to the base prompt for the chosen
holiday row. -/
def holidayClause (name ty : String) : String :=
  " The bird is celebrating the \"" ++ name ++ "\" " ++ pyLower ty
    ++ " with various decorations and apparel."

/-- Outcome of `generate_prompt`: either the process exits (`sys.exit` on a
missing input file), or it returns the composed prompt and optional holiday
name, having overwritten PROMPT_FILE with `promptFile`. -/
inductive GpResult where
  | exit (code : Nat)
  | ok (prompt : String) (holiday_name : Option String) (promptFile : String)
deriving DecidableEq

/-- `generate_prompt` of bird.py lines 157-197. `prompt_base_file` and
`holidays_file` are the contents of PROMPT_BASE_FILE and HOLIDAYS_FILE
(`none` = the file is missing, on which the code calls `sys.exit(1)`);
`today` is `now.strftime` of line 159; `pick` determines `random.choice`,
which selects index `pick % matches.length` of the matching rows. -/
def generate_prompt (prompt_base_file : Option String)
    (holidays_file : Option (List HolidayRow)) (today : String) (pick : Nat) :
    GpResult :=
  match prompt_base_file with
  | none => .exit 1
  | some rawBase =>
    let base_prompt := pyStrip rawBase
    match holidays_file with
    | none => .exit 1
    | some rows =>
      match rows.filter (fun r => r.Date == today) with
      | [] => .ok base_prompt none (base_prompt ++ "\n")
      | m :: ms =>
        let chosen :=
          (m :: ms).get ⟨pick % (ms.length + 1), Nat.mod_lt _ (Nat.succ_pos _)⟩
        let updated_prompt :=
          base_prompt ++ holidayClause chosen.Name chosen.Type'
        .ok updated_prompt (some chosen.Name) (updated_prompt ++ "\n")

/-- Python rendering of the optional holiday name inside an f-string: the
value `None` renders as the four characters "None". -/
def pyFormat : Option String → String
  | some s => s
  | none => "None"

/-- The constant alt text passed to `post_image_to_mastodon` at bird.py
line 229. -/
def alt_text : String := "Here's a random floofy-headed bird - generated by AI!"

/-- `status_text` as built in `main_loop`, bird.py lines 218-222. -/
def status_text_for : Option String → String
  | some name =>
      "Here's a random floofy-headed bird celebrating \"" ++ name
        ++ "\" - generated by AI!\n#floofy #bird #birds #ai #nature"
  | none =>
      "Here's a random floofy-headed bird - generated by AI!\n#floofy #bird #birds #ai #nature"

/-- `email_body_text` as built in `main_loop`, bird.py lines 218-223: both
branches of the `if holiday_name:` use the same celebrating f-string, so the
no-holiday branch renders the Python value `None` into the text. -/
def email_body_for (holiday_name : Option String) : String :=
  "Here's a random floofy-headed bird celebrating \"" ++ pyFormat holiday_name
    ++ "\" - generated by AI!"

/-- The Python exception classes the program distinguishes: `exc` is any
`Exception` (caught by `except Exception`), `exit` is the `SystemExit` of
`sys.exit` (not caught by `except Exception`). -/
inductive PyError where
  | exc
  | exit (code : Nat)
deriving DecidableEq

/-- The observable external actions of one `main_loop` iteration. -/
inductive Event where
  | sleep (seconds : Nat)
  | record_error
  | write_prompt_file (content : String)
  | image_request (prompt : String)
  | media_post (alt : String)
  | status_post (text : String)
  | mta_invoke (subject body : String)
  | sleep_until_run (target_hour : Nat)
deriving DecidableEq

/-- The external world of one cycle: the error marker, the timestamp parser,
the current instant, the input files, the random pick, and the outcome of
each external service call (`false` / `none` = the call raises `Exception`;
for msmtp, `some code` = the subprocess runs and exits with `code`). -/
structure CycleEnv where
  error_marker : Option String
  fromisoformat : String → Option Int
  now : Int
  prompt_base_file : Option String
  holidays_file : Option (List HolidayRow)
  today : String
  pick : Nat
  image_ok : Bool
  media_ok : Bool
  status_ok : Bool
  mta_result : Option Int

/-- `send_email` of bird.py lines 84-120. Spawning msmtp and communicating
with it may raise (`mta_result = none`); that is caught by the function's
`except Exception` and only logged. A non-zero exit code is only logged
(line 116). The returned `Except` is the exception, if any, that the call
lets escape to `main_loop`. -/
def send_email (subject body : String) (mta_result : Option Int) :
    Except PyError Unit × List Event :=
  let events := [Event.mta_invoke subject body]
  let attempt : Except PyError Int :=
    match mta_result with
    | none => .error .exc
    | some code => .ok code
  match attempt with
  | .ok _ => (.ok (), events)
  | .error .exc => (.ok (), events)
  | .error (.exit c) => (.error (.exit c), events)

/-- The body of `main_loop`'s `try` block, bird.py lines 208-238: compose the
prompt, generate the image, post to Mastodon, send the email. Returns the
exception, if any, escaping the block, with the events performed up to that
point. -/
def cycle_body (env : CycleEnv) : Except PyError Unit × List Event :=
  match generate_prompt env.prompt_base_file env.holidays_file env.today
      env.pick with
  | .exit c => (.error (.exit c), [])
  | .ok image_prompt holiday_name promptFile =>
    let evs1 := [Event.write_prompt_file promptFile,
                 Event.image_request image_prompt]
    if env.image_ok then
      let evs2 := evs1 ++ [Event.media_post alt_text]
      if env.media_ok then
        let evs3 := evs2 ++ [Event.status_post (status_text_for holiday_name)]
        if env.status_ok then
          let mailed := send_email "Your Floofy-Headed Bird Image"
            (email_body_for holiday_name) env.mta_result
          (mailed.1, evs3 ++ mailed.2)
        else (.error .exc, evs3)
      else (.error .exc, evs2)
    else (.error .exc, evs1)

/-- One iteration of `main_loop`'s `while True`, bird.py lines 199-248.
Returns the iteration's events and `some code` when the process terminates
(an uncaught `SystemExit`), `none` when the loop continues. The
`except Exception` block records the error and sleeps 600 seconds, and —
having no `continue` — falls through to the final sleep until the next
9 o'clock run, exactly like the success path. -/
def main_loop_iter (env : CycleEnv) : List Event × Option Nat :=
  if should_retry env.error_marker env.fromisoformat env.now then
    match cycle_body env with
    | (.ok (), evs) => (evs ++ [Event.sleep_until_run 9], none)
    | (.error .exc, evs) =>
        (evs ++ [Event.record_error, Event.sleep 600, Event.sleep_until_run 9],
         none)
    | (.error (.exit c), evs) => (evs, some c)
  else
    ([Event.sleep 3600], none)

/-- A cycle in which everything succeeds and no holiday row matches today. -/
def envNoMatch : CycleEnv where
  error_marker := none
  fromisoformat := fun _ => none
  now := 0
  prompt_base_file := some "A bird."
  holidays_file := some []
  today := "3/4/2026"
  pick := 0
  image_ok := true
  media_ok := true
  status_ok := true
  mta_result := some 0

/-- `envNoMatch`, but the image-generation call raises. -/
def envImageFail : CycleEnv := { envNoMatch with image_ok := false }

/-- `envNoMatch`, but msmtp exits with a non-zero code. -/
def envMtaFail : CycleEnv := { envNoMatch with mta_result := some 1 }

/-- `envNoMatch`, but the base prompt file is missing. -/
def envMissingBase : CycleEnv := { envNoMatch with prompt_base_file := none }

/-- `envNoMatch`, but today's holiday table row is a holiday named "bird". -/
def envBirdHoliday : CycleEnv :=
  { envNoMatch with
      holidays_file := some [⟨"10/12/2026", "bird", "Holiday"⟩]
      today := "10/12/2026" }

/-- A cycle whose one holiday row is dated a day other than today. -/
def envNonMatchingRow : CycleEnv :=
  { envNoMatch with
      holidays_file := some [⟨"1/2/2026", "Groundhog Day", "Holiday"⟩] }

/-- Whether the character list `pat` occurs contiguously in the list. -/
def sublistOccurs (pat : List Char) : List Char → Bool
  | [] => pat.isPrefixOf []
  | c :: rest => pat.isPrefixOf (c :: rest) || sublistOccurs pat rest

/-- Whether `pat` occurs as a contiguous substring of `s`. -/
def strOccurs (s pat : String) : Bool := sublistOccurs pat.data s.data

/-- `send_email` always returns normally, whatever msmtp does, and its only
external action is the one msmtp invocation. -/
theorem send_email_result (subject body : String) (mta_result : Option Int) :
    send_email subject body mta_result
      = (Except.ok (), [Event.mta_invoke subject body]) := by
  cases mta_result <;> rfl

/-- With both input files present, `generate_prompt` never exits. -/
theorem generate_prompt_some_ne_exit (b : String) (rows : List HolidayRow)
    (today : String) (pick : Nat) (c : Nat) :
    generate_prompt (some b) (some rows) today pick ≠ GpResult.exit c := by
  simp only [generate_prompt]
  cases rows.filter (fun r => r.Date == today) <;> simp

/-- Every media upload performed by the try-block carries `alt_text`. -/
theorem cycle_body_media (env : CycleEnv) :
    ∀ a, Event.media_post a ∈ (cycle_body env).2 → a = alt_text := by
  intro a ha
  rw [cycle_body] at ha
  split at ha
  · simp at ha
  · split_ifs at ha <;> simp_all [send_email_result]

/-- C4: for every current local time and target hour in 0-23,
`time_until_next_run` returns a non-negative delay such that the current time
plus that delay lands exactly on the target hour with zero minutes, seconds
and microseconds — today's target instant when the current time is strictly
before it, tomorrow's target instant when it is at or past it. -/
theorem time_until_next_run_correct (now target_hour : Nat)
    (h : target_hour < 24) :
    0 ≤ time_until_next_run now target_hour ∧
    ((now : Int) + time_until_next_run now target_hour) % (dayLen : Int)
      = (target_hour : Int) * (hourLen : Int) ∧
    ((now : Int) < (replaceHour now target_hour : Int) →
      (now : Int) + time_until_next_run now target_hour
        = (replaceHour now target_hour : Int)) ∧
    ((replaceHour now target_hour : Int) ≤ (now : Int) →
      (now : Int) + time_until_next_run now target_hour
        = (replaceHour now target_hour : Int) + (dayLen : Int)) := by
  simp only [time_until_next_run, replaceHour, dayLen, hourLen] at *
  split_ifs with hle <;> refine ⟨by omega, by omega, by omega, by omega⟩

/-- Witness for C4 at 10:00 with target hour 9: the run rolls to tomorrow. -/
theorem time_until_next_run_correct_witness :
    0 ≤ time_until_next_run 36000000000 9 ∧
    (((36000000000 : Nat) : Int) + time_until_next_run 36000000000 9)
        % (dayLen : Int)
      = ((9 : Nat) : Int) * (hourLen : Int) ∧
    (((36000000000 : Nat) : Int) < (replaceHour 36000000000 9 : Int) →
      ((36000000000 : Nat) : Int) + time_until_next_run 36000000000 9
        = (replaceHour 36000000000 9 : Int)) ∧
    ((replaceHour 36000000000 9 : Int) ≤ ((36000000000 : Nat) : Int) →
      ((36000000000 : Nat) : Int) + time_until_next_run 36000000000 9
        = (replaceHour 36000000000 9 : Int) + (dayLen : Int)) :=
  time_until_next_run_correct 36000000000 9 (by decide)

/-- C3: `should_retry` returns true when the marker file is absent, true when
it exists but is empty, true when its content does not parse as a timestamp,
false when the parsed timestamp is less than 24 hours before the current
time, and true when 24 hours or more have elapsed. -/
theorem should_retry_spec (fromisoformat : String → Option Int) (now : Int)
    (raw : String) :
    should_retry none fromisoformat now = true ∧
    should_retry (some "") fromisoformat now = true ∧
    (fromisoformat (pyStrip raw) = none →
      should_retry (some raw) fromisoformat now = true) ∧
    (∀ t, pyStrip raw ≠ "" → fromisoformat (pyStrip raw) = some t →
      now < t + hours24 → should_retry (some raw) fromisoformat now = false) ∧
    (∀ t, pyStrip raw ≠ "" → fromisoformat (pyStrip raw) = some t →
      t + hours24 ≤ now → should_retry (some raw) fromisoformat now = true) := by
  refine ⟨rfl, rfl, ?_, ?_, ?_⟩
  · intro hp
    by_cases he : pyStrip raw = "" <;> simp [should_retry, he, hp]
  · intro t he hp hlt
    simp [should_retry, he, hp, hlt]
  · intro t he hp hge
    simp [should_retry, he, hp, not_lt.mpr hge]

/-- Witness for C3: a marker parsing to timestamp 0 seen at time 5 blocks the
retry. -/
theorem should_retry_spec_witness :
    should_retry (some "t0") (fun s => if s = "t0" then some 0 else none) 5
      = false :=
  (should_retry_spec (fun s => if s = "t0" then some 0 else none) 5 "t0").2.2.2.1
    0 (by decide) (by decide) (by decide)

/-- C9: whenever `generate_prompt` completes, the content written to the
prompt file is exactly the returned prompt text followed by a single trailing
newline. -/
theorem prompt_file_matches_prompt (b : Option String)
    (rows : Option (List HolidayRow)) (today : String) (pick : Nat)
    (p : String) (hol : Option String) (f : String)
    (hok : generate_prompt b rows today pick = GpResult.ok p hol f) :
    f = p ++ "\n" := by
  cases b with
  | none => exact absurd hok (by simp [generate_prompt])
  | some rawBase =>
    cases rows with
    | none => exact absurd hok (by simp [generate_prompt])
    | some rs =>
      cases hfilter : rs.filter (fun r => r.Date == today) with
      | nil =>
        simp only [generate_prompt, hfilter, GpResult.ok.injEq] at hok
        obtain ⟨h1, -, h3⟩ := hok
        rw [← h3, ← h1]
      | cons m ms =>
        simp only [generate_prompt, hfilter, GpResult.ok.injEq] at hok
        obtain ⟨h1, -, h3⟩ := hok
        rw [← h3, ← h1]

/-- Witness for C9 on a concrete no-match cycle. -/
theorem prompt_file_matches_prompt_witness : "A bird.\n" = "A bird." ++ "\n" :=
  prompt_file_matches_prompt (some "A bird.") (some []) "1/1/2026" 0
    "A bird." none "A bird.\n" (by decide)

/-- C5: with at least one holiday row dated today, `generate_prompt` chooses
one of exactly the matching rows, surfaces that row's Name, and returns the
base prompt with the fixed clause naming the holiday and its lowercased Type;
in particular, with base prompt "A bird." and matching row
(Hat Day, Holiday), the composed prompt is the Hat Day sentence and the
surfaced name is "Hat Day". -/
theorem generate_prompt_match (rawBase : String) (rows : List HolidayRow)
    (today : String) (pick : Nat)
    (hm : rows.filter (fun r => r.Date == today) ≠ []) :
    (∃ chosen ∈ rows.filter (fun r => r.Date == today),
      generate_prompt (some rawBase) (some rows) today pick
        = GpResult.ok
            (pyStrip rawBase ++ holidayClause chosen.Name chosen.Type')
            (some chosen.Name)
            (pyStrip rawBase ++ holidayClause chosen.Name chosen.Type'
              ++ "\n")) ∧
    generate_prompt (some "A bird.")
        (some [⟨"10/12/2026", "Hat Day", "Holiday"⟩]) "10/12/2026" 0
      = GpResult.ok
          "A bird. The bird is celebrating the \"Hat Day\" holiday with various decorations and apparel."
          (some "Hat Day")
          "A bird. The bird is celebrating the \"Hat Day\" holiday with various decorations and apparel.\n" := by
  constructor
  · cases hfilter : rows.filter (fun r => r.Date == today) with
    | nil => exact absurd hfilter hm
    | cons m ms =>
      refine ⟨(m :: ms).get
          ⟨pick % (ms.length + 1), Nat.mod_lt _ (Nat.succ_pos _)⟩, ?_, ?_⟩
      · exact (m :: ms).get_mem _ _
      · simp only [generate_prompt, hfilter]
  · decide

/-- Witness for C5: the Hat Day scenario via the general statement. -/
theorem generate_prompt_match_witness :
    generate_prompt (some "A bird.")
        (some [⟨"10/12/2026", "Hat Day", "Holiday"⟩]) "10/12/2026" 0
      = GpResult.ok
          "A bird. The bird is celebrating the \"Hat Day\" holiday with various decorations and apparel."
          (some "Hat Day")
          "A bird. The bird is celebrating the \"Hat Day\" holiday with various decorations and apparel.\n" :=
  (generate_prompt_match "A bird." [⟨"10/12/2026", "Hat Day", "Holiday"⟩]
    "10/12/2026" 0 (by decide)).2

/-- C1: when image generation raises, the iteration logs, records the error
and sleeps the fixed 600 seconds, but then — the except block having no
continue — additionally sleeps until the next 9 o'clock target instant
before the next cooldown check, contrary to the claim (and to the code's own
log line "Retrying in 10 minutes..."). -/
theorem failure_path_extra_target_sleep :
    main_loop_iter envImageFail
      = ([Event.write_prompt_file "A bird.\n", Event.image_request "A bird.",
          Event.record_error, Event.sleep 600, Event.sleep_until_run 9],
         none) := by
  decide

/-- C2: on a cycle with zero matching holiday rows the composed prompt equals
the base prompt, no holiday name is chosen, and the status text is the plain
constant — but the email body text still interpolates the absent holiday
name, reading celebrating "None", because line 223 of bird.py reuses the
celebrating f-string in the else branch. -/
theorem no_match_email_body_interpolates_none :
    generate_prompt (some "A bird.")
        (some [⟨"1/2/2026", "Groundhog Day", "Holiday"⟩]) "3/4/2026" 0
      = GpResult.ok "A bird." none "A bird.\n" ∧
    status_text_for none
      = "Here's a random floofy-headed bird - generated by AI!\n#floofy #bird #birds #ai #nature" ∧
    email_body_for none
      = "Here's a random floofy-headed bird celebrating \"None\" - generated by AI!" ∧
    (main_loop_iter envNonMatchingRow).1
      = [Event.write_prompt_file "A bird.\n", Event.image_request "A bird.",
         Event.media_post alt_text,
         Event.status_post
           "Here's a random floofy-headed bird - generated by AI!\n#floofy #bird #birds #ai #nature",
         Event.mta_invoke "Your Floofy-Headed Bird Image"
           "Here's a random floofy-headed bird celebrating \"None\" - generated by AI!",
         Event.sleep_until_run 9] := by
  decide

/-- C6: whenever the image-generation call raises, the iteration records a
fresh error timestamp and performs no media upload, no status post and no
msmtp invocation. -/
theorem image_failure_records_error_no_publish (env : CycleEnv)
    (b : String) (rows : List HolidayRow)
    (hr : should_retry env.error_marker env.fromisoformat env.now = true)
    (hb : env.prompt_base_file = some b)
    (hh : env.holidays_file = some rows)
    (hi : env.image_ok = false) :
    Event.record_error ∈ (main_loop_iter env).1 ∧
    (∀ a, Event.media_post a ∉ (main_loop_iter env).1) ∧
    (∀ s, Event.status_post s ∉ (main_loop_iter env).1) ∧
    (∀ s t, Event.mta_invoke s t ∉ (main_loop_iter env).1) := by
  cases hgp : generate_prompt env.prompt_base_file env.holidays_file env.today
      env.pick with
  | exit c =>
      rw [hb, hh] at hgp
      exact absurd hgp
        (generate_prompt_some_ne_exit b rows env.today env.pick c)
  | ok p hol f =>
      have hmain : main_loop_iter env
          = ([Event.write_prompt_file f, Event.image_request p,
              Event.record_error, Event.sleep 600, Event.sleep_until_run 9],
             none) := by
        simp only [main_loop_iter, hr, cycle_body, hgp, hi]
        rfl
      rw [hmain]
      refine ⟨by simp, ?_, ?_, ?_⟩ <;> intros <;> simp

/-- Witness for C6 on a concrete cycle whose image generation raises. -/
theorem image_failure_records_error_no_publish_witness :
    Event.record_error ∈ (main_loop_iter envImageFail).1 ∧
    (∀ a, Event.media_post a ∉ (main_loop_iter envImageFail).1) ∧
    (∀ s, Event.status_post s ∉ (main_loop_iter envImageFail).1) ∧
    (∀ s t, Event.mta_invoke s t ∉ (main_loop_iter envImageFail).1) :=
  image_failure_records_error_no_publish envImageFail "A bird." [] rfl rfl
    rfl rfl

/-- C7: any msmtp failure — a non-zero exit code or an exception while
spawning or communicating — is swallowed inside `send_email`; on a cycle
whose compose, generate and publish steps succeed, the iteration records no
error, keeps looping, and ends with the sleep until the next target hour,
whatever the mail outcome. -/
theorem mailer_failures_absorbed (env : CycleEnv)
    (b : String) (rows : List HolidayRow)
    (hr : should_retry env.error_marker env.fromisoformat env.now = true)
    (hb : env.prompt_base_file = some b)
    (hh : env.holidays_file = some rows)
    (hi : env.image_ok = true) (hm : env.media_ok = true)
    (hs : env.status_ok = true) :
    (∀ subject body mta, (send_email subject body mta).1 = Except.ok ()) ∧
    Event.record_error ∉ (main_loop_iter env).1 ∧
    (main_loop_iter env).2 = none ∧
    (∃ evs, (main_loop_iter env).1 = evs ++ [Event.sleep_until_run 9]) := by
  refine ⟨fun s t m => by rw [send_email_result], ?_⟩
  cases hgp : generate_prompt env.prompt_base_file env.holidays_file env.today
      env.pick with
  | exit c =>
      rw [hb, hh] at hgp
      exact absurd hgp
        (generate_prompt_some_ne_exit b rows env.today env.pick c)
  | ok p hol f =>
      have hmain : main_loop_iter env
          = ([Event.write_prompt_file f, Event.image_request p,
              Event.media_post alt_text,
              Event.status_post (status_text_for hol),
              Event.mta_invoke "Your Floofy-Headed Bird Image"
                (email_body_for hol),
              Event.sleep_until_run 9], none) := by
        simp only [main_loop_iter, hr, cycle_body, hgp, hi, hm, hs,
          send_email_result]
        rfl
      rw [hmain]
      exact ⟨by simp, rfl,
        ⟨[Event.write_prompt_file f, Event.image_request p,
          Event.media_post alt_text, Event.status_post (status_text_for hol),
          Event.mta_invoke "Your Floofy-Headed Bird Image"
            (email_body_for hol)],
         rfl⟩⟩

/-- Witness for C7 on a concrete cycle whose msmtp exits non-zero. -/
theorem mailer_failures_absorbed_witness :
    (send_email "s" "b" (some 1)).1 = Except.ok () ∧
    Event.record_error ∉ (main_loop_iter envMtaFail).1 ∧
    (main_loop_iter envMtaFail).2 = none :=
  ⟨(mailer_failures_absorbed envMtaFail "A bird." [] rfl rfl rfl rfl rfl
      rfl).1 "s" "b" (some 1),
   (mailer_failures_absorbed envMtaFail "A bird." [] rfl rfl rfl rfl rfl
      rfl).2.1,
   (mailer_failures_absorbed envMtaFail "A bird." [] rfl rfl rfl rfl rfl
      rfl).2.2.1⟩

/-- C8: with the base prompt file or the holiday table missing, composing the
prompt raises SystemExit, which the except-Exception handler does not catch:
the process terminates with code 1, no error marker is written, and no retry
sleep (600 s) nor next-run sleep happens. -/
theorem missing_file_exits_uncaught (env : CycleEnv)
    (hr : should_retry env.error_marker env.fromisoformat env.now = true)
    (hmiss : env.prompt_base_file = none ∨ env.holidays_file = none) :
    (main_loop_iter env).2 = some 1 ∧
    Event.record_error ∉ (main_loop_iter env).1 ∧
    Event.sleep 600 ∉ (main_loop_iter env).1 ∧
    Event.sleep_until_run 9 ∉ (main_loop_iter env).1 := by
  have hgp : generate_prompt env.prompt_base_file env.holidays_file env.today
      env.pick = GpResult.exit 1 := by
    rcases hmiss with hmb | hmh
    · rw [hmb]; rfl
    · rw [hmh]; cases env.prompt_base_file <;> rfl
  have hmain : main_loop_iter env = ([], some 1) := by
    simp only [main_loop_iter, hr, cycle_body, hgp]
    rfl
  rw [hmain]
  simp

/-- Witness for C8 with the base prompt file missing. -/
theorem missing_file_exits_uncaught_witness :
    (main_loop_iter envMissingBase).2 = some 1 ∧
    Event.record_error ∉ (main_loop_iter envMissingBase).1 ∧
    Event.sleep 600 ∉ (main_loop_iter envMissingBase).1 ∧
    Event.sleep_until_run 9 ∉ (main_loop_iter envMissingBase).1 :=
  missing_file_exits_uncaught envMissingBase rfl (Or.inl rfl)

/-- C10 counterexample: on a cycle whose matched holiday is named "bird",
the surfaced holiday name is "bird" and the alt text handed to the media
upload contains it — the holiday name happens to occur in the fixed
constant — so "the alt text never contains the holiday name" is false as
stated. -/
theorem alt_text_contains_matched_holiday_name :
    generate_prompt envBirdHoliday.prompt_base_file
        envBirdHoliday.holidays_file envBirdHoliday.today envBirdHoliday.pick
      = GpResult.ok
          "A bird. The bird is celebrating the \"bird\" holiday with various decorations and apparel."
          (some "bird")
          "A bird. The bird is celebrating the \"bird\" holiday with various decorations and apparel.\n" ∧
    Event.media_post alt_text ∈ (main_loop_iter envBirdHoliday).1 ∧
    strOccurs alt_text "bird" = true := by
  decide

/-- C10 amended: the alt text supplied to every media upload is the fixed
constant `alt_text`, identical whether or not a holiday was matched, and is
never derived from the holiday name. -/
theorem alt_text_always_constant (env : CycleEnv) :
    ∀ a, Event.media_post a ∈ (main_loop_iter env).1 → a = alt_text := by
  intro a ha
  rw [main_loop_iter] at ha
  split at ha
  · split at ha <;> rename_i heq <;> simp only [List.mem_append] at ha
    · rcases ha with ha | ha
      · exact cycle_body_media env a (by rw [heq]; exact ha)
      · simp at ha
    · rcases ha with ha | ha
      · exact cycle_body_media env a (by rw [heq]; exact ha)
      · simp at ha
    · exact cycle_body_media env a (by rw [heq]; exact ha)
  · simp at ha

/-- Witness for the amended C10 on the "bird"-holiday cycle. -/
theorem alt_text_always_constant_witness : alt_text = alt_text :=
  alt_text_always_constant envBirdHoliday alt_text (by decide)
